import Mathlib

/-!
# Verification of the food-tracker entry store and nutrition analysis engine

A shallow embedding of the core of `obsidian-food-tracker`:

* the record model (`src/model.ts`: `FoodItem`, `FoodEntry`),
* the summary calculators (`DataStorage.calculateDailySummary`,
  `NutritionCalculator.calculateDailyNutritionSummary`),
* the goal/trend analyzers (`NutritionCalculator.calculateProgress`,
  `calculateLimitProgress`, `calculateAverages`, `calculateConsistency`),
* the entry store with its dual-representation persistence
  (`DataStorage.saveFoodEntry`, `getFoodEntriesForDate`, `deleteFoodEntry`,
  `persistDayData`, `loadDayData`, markdown generation and re-parsing).

JavaScript numbers are modelled as exact rationals (`ℚ`); `Math.round` is
`⌊x + 1/2⌋`, which is exactly the JS semantics for every real input, and the
`Math.round(x*10)/10` one-decimal idiom is `round1`.  I/O against the host
(Obsidian plugin data + vault files) is modelled as a `World` record with
explicit failure flags; a thrown JS exception is an `Except.error`, and the
`try`/`catch` blocks of the source are modelled at exactly the places the
source has them.
-/

namespace FoodTracker

/-! ## JS numeric primitives -/

/-- `Math.round`: round half towards `+∞`, i.e. `⌊x + 1/2⌋` (exact JS
semantics for all inputs, including negatives).  `Rat.floor` is used so the
definition evaluates by kernel reduction; `jround_eq_floor` below restates it
through `Int.floor`. -/
def jround (q : ℚ) : ℚ := (((q + 1/2).floor : ℤ) : ℚ)

/-- The `Math.round(x * 10) / 10` idiom: round to one decimal place. -/
def round1 (q : ℚ) : ℚ := jround (q * 10) / 10

/-! ## Record model (`src/model.ts`) -/

/-- The `meal` discriminator of a `FoodEntry`. -/
inductive Meal where
  | breakfast | lunch | dinner | snack
deriving DecidableEq, Repr

/-- The `nutrition` record embedded in a `FoodItem`.  `fiber`, `sugar`,
`sodium` are optional in `model.ts`; `water` does not appear in the interface
but is read as `nutrition.water || 0` by both summary calculators, so runtime
objects may carry it — it is modelled as an optional field as well. -/
@[ext] structure Nutrition where
  calories : ℚ
  protein : ℚ
  carbs : ℚ
  fat : ℚ
  fiber : Option ℚ
  sugar : Option ℚ
  sodium : Option ℚ
  water : Option ℚ
deriving DecidableEq, Repr

/-- `FoodItem` from `model.ts`. -/
@[ext] structure FoodItem where
  id : String
  name : String
  category : String
  servingSize : ℚ
  servingUnit : String
  nutrition : Nutrition
deriving DecidableEq, Repr

/-- `FoodEntry` from `model.ts`.  `timestamp` is the `Date.now()` creation
instant (an integer count of milliseconds). -/
@[ext] structure FoodEntry where
  id : String
  date : String
  timestamp : ℤ
  foodItem : FoodItem
  quantity : ℚ
  meal : Meal
  notes : Option String
deriving DecidableEq, Repr

/-- The `mealBreakdown` component of a `DailyNutritionSummary`. -/
@[ext] structure MealBreakdown where
  breakfast : ℚ
  lunch : ℚ
  dinner : ℚ
  snack : ℚ
deriving DecidableEq, Repr

/-- `DailyNutritionSummary` from `services/dataStorage.ts`. -/
@[ext] structure DailyNutritionSummary where
  date : String
  totalCalories : ℚ
  totalProtein : ℚ
  totalCarbs : ℚ
  totalFat : ℚ
  totalFiber : ℚ
  totalSugar : ℚ
  totalSodium : ℚ
  totalWater : ℚ
  entryCount : ℕ
  mealBreakdown : MealBreakdown
deriving DecidableEq, Repr

/-- `NutritionGoals` from `services/foodDatabase.ts`. -/
@[ext] structure NutritionGoals where
  calories : ℚ
  protein : ℚ
  carbs : ℚ
  fat : ℚ
  fiber : Option ℚ
  sugar : Option ℚ
  sodium : Option ℚ
  water : Option ℚ
deriving DecidableEq, Repr

/-- `x || 0` on an optional JS number field. -/
def orZero (o : Option ℚ) : ℚ := o.getD 0

/-! ## Summary calculators -/

/-- `NutritionCalculator.getServingMultiplier`:
`(entry.quantity * entry.foodItem.servingSize) / 100`.  The identical
expression is inlined in `DataStorage.calculateDailySummary` and in
`generateMarkdownContent`. -/
def getServingMultiplier (e : FoodEntry) : ℚ :=
  e.quantity * e.foodItem.servingSize / 100

/-- The (unrounded) calories one entry contributes:
`nutrition.calories * multiplier`. -/
def entryCalories (e : FoodEntry) : ℚ :=
  e.foodItem.nutrition.calories * getServingMultiplier e

/-- The calories an entry contributes to the bucket of meal `m`. -/
def bucketCalories (m : Meal) (e : FoodEntry) : ℚ :=
  if e.meal = m then entryCalories e else 0

/-- Add `v` to the bucket of meal `m`
(`summary.mealBreakdown[entry.meal] += calories`). -/
def MealBreakdown.add (mb : MealBreakdown) (m : Meal) (v : ℚ) : MealBreakdown :=
  match m with
  | .breakfast => { mb with breakfast := mb.breakfast + v }
  | .lunch => { mb with lunch := mb.lunch + v }
  | .dinner => { mb with dinner := mb.dinner + v }
  | .snack => { mb with snack := mb.snack + v }

/-- The all-zero summary record both summary calculators start from /
fall back to. -/
def emptySummary (date : String) : DailyNutritionSummary :=
  { date := date
    totalCalories := 0, totalProtein := 0, totalCarbs := 0, totalFat := 0
    totalFiber := 0, totalSugar := 0, totalSodium := 0, totalWater := 0
    entryCount := 0
    mealBreakdown := { breakfast := 0, lunch := 0, dinner := 0, snack := 0 } }

/-- The loop body shared verbatim by `DataStorage.calculateDailySummary`
(`for (const entry of entries) { ... }`) and
`NutritionCalculator.calculateDailyNutritionSummary`
(`entries.forEach((entry) => { ... })`): accumulate the seven nutrient
totals and the per-meal calorie bucket of one entry. -/
def accumulateEntry (acc : DailyNutritionSummary) (e : FoodEntry) :
    DailyNutritionSummary :=
  let multiplier := e.quantity * e.foodItem.servingSize / 100
  let nutrition := e.foodItem.nutrition
  let calories := nutrition.calories * multiplier
  { acc with
    totalCalories := acc.totalCalories + calories
    totalProtein := acc.totalProtein + nutrition.protein * multiplier
    totalCarbs := acc.totalCarbs + nutrition.carbs * multiplier
    totalFat := acc.totalFat + nutrition.fat * multiplier
    totalFiber := acc.totalFiber + orZero nutrition.fiber * multiplier
    totalSugar := acc.totalSugar + orZero nutrition.sugar * multiplier
    totalSodium := acc.totalSodium + orZero nutrition.sodium * multiplier
    totalWater := acc.totalWater + orZero nutrition.water * multiplier
    mealBreakdown := acc.mealBreakdown.add e.meal calories }

/-- `DataStorage.calculateDailySummary`: starts from the all-zero record with
`entryCount: entries.length` and folds the accumulation loop over the
entries.  Note: this function performs **no rounding**. -/
def calculateDailySummary (date : String) (entries : List FoodEntry) :
    DailyNutritionSummary :=
  entries.foldl accumulateEntry { emptySummary date with entryCount := entries.length }

/-- `NutritionCalculator.calculateDailyNutritionSummary`: returns the all-zero
summary for an empty/absent list; otherwise accumulates the same loop body
into zero-initialised locals and rounds on the way out
(`Math.round` for calories and the meal buckets, `Math.round(x*10)/10` for
the gram/ml totals). -/
def calculateDailyNutritionSummary (date : String) (entries : List FoodEntry) :
    DailyNutritionSummary :=
  if entries.isEmpty then emptySummary date
  else
    let raw := entries.foldl accumulateEntry (emptySummary date)
    { date := date
      totalCalories := jround raw.totalCalories
      totalProtein := round1 raw.totalProtein
      totalCarbs := round1 raw.totalCarbs
      totalFat := round1 raw.totalFat
      totalFiber := round1 raw.totalFiber
      totalSugar := round1 raw.totalSugar
      totalSodium := round1 raw.totalSodium
      totalWater := round1 raw.totalWater
      entryCount := entries.length
      mealBreakdown :=
        { breakfast := jround raw.mealBreakdown.breakfast
          lunch := jround raw.mealBreakdown.lunch
          dinner := jround raw.mealBreakdown.dinner
          snack := jround raw.mealBreakdown.snack } }

/-! ## Goal Analyzer (`NutritionCalculator`) -/

/-- A target-style per-nutrient progress record
(calories / protein / carbs / fat / fiber / water). -/
@[ext] structure Progress where
  current : ℚ
  target : ℚ
  percentage : ℚ
  remaining : ℚ
deriving DecidableEq, Repr

/-- The `under`/`met`/`over` classification of a limit nutrient. -/
inductive LimitStatus where
  | under | over | met
deriving DecidableEq, Repr

/-- A limit-style per-nutrient progress record (sugar / sodium). -/
@[ext] structure LimitProgress where
  current : ℚ
  target : ℚ
  percentage : ℚ
  status : LimitStatus
deriving DecidableEq, Repr

/-- `NutritionCalculator.calculateProgress`. -/
def calculateProgress (current target : ℚ) : Progress :=
  let percentage := if 0 < target then jround (current / target * 100) else 0
  let remaining := max 0 (target - current)
  { current := round1 current
    target := target
    percentage := percentage
    remaining := round1 remaining }

/-- `NutritionCalculator.calculateLimitProgress`: an 80%/110% band around the
limit; strictly below 80% is `under`, strictly above 110% is `over`, the
closed band in between is `met`. -/
def calculateLimitProgress (current limit : ℚ) : LimitProgress :=
  let percentage := if 0 < limit then jround (current / limit * 100) else 0
  let status : LimitStatus :=
    if current < limit * 0.8 then .under
    else if limit * 1.1 < current then .over
    else .met
  { current := round1 current
    target := limit
    percentage := percentage
    status := status }

/-! ## Trend Analyzer (`NutritionCalculator`) -/

/-- The window averages returned by `NutritionCalculator.calculateAverages`. -/
@[ext] structure Averages where
  calories : ℚ
  protein : ℚ
  carbs : ℚ
  fat : ℚ
  fiber : ℚ
deriving DecidableEq, Repr

/-- The body of the `summaries.reduce` accumulator in
`NutritionCalculator.calculateAverages`. -/
def avgStep (acc : ℚ × ℚ × ℚ × ℚ × ℚ) (s : DailyNutritionSummary) :
    ℚ × ℚ × ℚ × ℚ × ℚ :=
  (acc.1 + s.totalCalories, acc.2.1 + s.totalProtein,
   acc.2.2.1 + s.totalCarbs, acc.2.2.2.1 + s.totalFat,
   acc.2.2.2.2 + s.totalFiber)

/-- `NutritionCalculator.calculateAverages`: zero on an empty window,
otherwise per-nutrient means rounded per the summary rounding policy. -/
def calculateAverages (summaries : List DailyNutritionSummary) : Averages :=
  if summaries.length = 0 then
    { calories := 0, protein := 0, carbs := 0, fat := 0, fiber := 0 }
  else
    let totals := summaries.foldl avgStep ((0 : ℚ), (0 : ℚ), (0 : ℚ), (0 : ℚ), (0 : ℚ))
    let count : ℚ := summaries.length
    { calories := jround (totals.1 / count)
      protein := round1 (totals.2.1 / count)
      carbs := round1 (totals.2.2.1 / count)
      fat := round1 (totals.2.2.2.1 / count)
      fiber := round1 (totals.2.2.2.2 / count) }

/-- The consistency report of `NutritionCalculator.calculateConsistency`. -/
@[ext] structure ConsistencyReport where
  calorieVariance : ℚ
  proteinConsistency : ℚ
  overallScore : ℚ
deriving DecidableEq, Repr

/-- `NutritionCalculator.calculateConsistency`.  `Math.sqrt` is an opaque host
primitive, passed in as `sqrtFn` (IEEE `Math.sqrt` is exact on exactly
representable perfect squares, which is all any theorem below assumes).
Fewer than two days yields the zeroed report; otherwise the "calorie
variance" is `sqrt` of the mean squared deviation of daily calories from the
(rounded) window average, protein consistency is the percentage of days with
protein in the 80%–120% band of target, and the overall score averages
`max 0 (100 - variance/calorieTarget*100)` with the protein percentage;
all three are `Math.round`ed. -/
def calculateConsistency (sqrtFn : ℚ → ℚ)
    (summaries : List DailyNutritionSummary) (goals : NutritionGoals) :
    ConsistencyReport :=
  if summaries.length < 2 then
    { calorieVariance := 0, proteinConsistency := 0, overallScore := 0 }
  else
    let averages := calculateAverages summaries
    let calorieVariances :=
      summaries.map (fun s => (s.totalCalories - averages.calories) ^ 2)
    let calorieVariance :=
      sqrtFn (calorieVariances.sum / calorieVariances.length)
    let proteinGoalsMet :=
      (summaries.filter (fun s =>
        goals.protein * 0.8 ≤ s.totalProtein ∧
          s.totalProtein ≤ goals.protein * 1.2)).length
    let proteinConsistency :=
      ((proteinGoalsMet : ℚ) / (summaries.length : ℚ)) * 100
    let calorieScore := max 0 (100 - calorieVariance / goals.calories * 100)
    let overallScore := (calorieScore + proteinConsistency) / 2
    { calorieVariance := jround calorieVariance
      proteinConsistency := jround proteinConsistency
      overallScore := jround overallScore }

/-! ## JSON values, printing, and parsing

`JSON.parse` / `JSON.stringify` are host primitives; they are modelled here
by a JSON value type, a recursive-descent parser for the JSON grammar
(RFC 8259), and a printer replicating `JSON.stringify(value, null, 2)`.
JS prints numbers in shortest round-trip decimal form; the printer below is
exact for rationals with a finite decimal expansion (the only numbers the
theorems below ever print). -/

/-- A JSON value.  Object fields keep insertion order, as JS objects do. -/
inductive Json where
  | null
  | bool (b : Bool)
  | num (q : ℚ)
  | str (s : String)
  | arr (elems : List Json)
  | obj (fields : List (String × Json))
deriving Repr

/-- Print a scaled integer `m` with `d` forced decimal places
(`d = 0` prints a plain integer). -/
def printScaled (d : ℕ) (m : ℤ) : String :=
  if d = 0 then toString m
  else
    let s := toString m.natAbs
    let s := if s.length < d + 1 then
      String.mk (List.replicate (d + 1 - s.length) '0') ++ s else s
    let cs := s.data
    (if m < 0 then "-" else "") ++
      String.mk (cs.take (cs.length - d)) ++ "." ++
      String.mk (cs.drop (cs.length - d))

/-- The smallest `k ≤ 39` with `q * 10^k` integral, if any. -/
def decExp? (q : ℚ) : Option ℕ :=
  (List.range 40).find? (fun k => (q * (10 : ℚ) ^ k).den = 1)

/-- JS default number-to-string conversion, exact on finite decimals:
integers print without a decimal point, other decimal-representable
rationals with the minimal number of fraction digits. -/
def numToStr (q : ℚ) : String :=
  match decExp? q with
  | some 0 => toString q.num
  | some (k + 1) => printScaled (k + 1) (q * (10 : ℚ) ^ (k + 1)).num
  | none => toString q.num ++ "/" ++ toString q.den

/-- `Number.prototype.toFixed` tie behaviour: round half away from zero. -/
def roundHalfAway (q : ℚ) : ℤ :=
  if q < 0 then -(-q + 1/2).floor else (q + 1/2).floor

/-- `x.toFixed(d)`: round to `d` decimals and print exactly `d` of them. -/
def toFixed (d : ℕ) (q : ℚ) : String :=
  printScaled d (roundHalfAway (q * (10 : ℚ) ^ d))

/-- Escape one character for a JSON string literal. -/
def escapeJsonChar (c : Char) : String :=
  if c = '"' then "\\\""
  else if c = '\\' then "\\\\"
  else if c = '\n' then "\\n"
  else if c = '\t' then "\\t"
  else if c = '\r' then "\\r"
  else String.mk [c]

/-- Quote and escape a string as a JSON string literal. -/
def quoteJson (s : String) : String :=
  "\"" ++ String.join (s.data.map escapeJsonChar) ++ "\""

/-- `JSON.stringify(·, null, 2)` with explicit recursion fuel (one unit per
nesting level; every value the embedding serializes nests at most four deep,
so the fuel of `Json.stringify` is never exhausted). `ind` is the current
indentation. -/
def stringifyAux : ℕ → String → Json → String
  | 0, _, _ => ""
  | _ + 1, _, .null => "null"
  | _ + 1, _, .bool true => "true"
  | _ + 1, _, .bool false => "false"
  | _ + 1, _, .num q => numToStr q
  | _ + 1, _, .str s => quoteJson s
  | _ + 1, _, .arr [] => "[]"
  | fuel + 1, ind, .arr (x :: xs) =>
    let ind' := ind ++ "  "
    "[\n" ++
      String.intercalate ",\n"
        ((x :: xs).map (fun v => ind' ++ stringifyAux fuel ind' v)) ++
      "\n" ++ ind ++ "]"
  | _ + 1, _, .obj [] => "\x7b\x7d"
  | fuel + 1, ind, .obj (f :: fs) =>
    let ind' := ind ++ "  "
    "\x7b\n" ++
      String.intercalate ",\n"
        ((f :: fs).map (fun p =>
          ind' ++ quoteJson p.1 ++ ": " ++ stringifyAux fuel ind' p.2)) ++
      "\n" ++ ind ++ "\x7d"

/-- `JSON.stringify(j, null, 2)`. -/
def Json.stringify (j : Json) : String := stringifyAux 1000 "" j

/-- Drop leading JSON whitespace. -/
def skipWs : List Char → List Char
  | [] => []
  | c :: cs =>
    if c = ' ' ∨ c = '\t' ∨ c = '\n' ∨ c = '\r' then skipWs cs else c :: cs

/-- Hex digit value. -/
def hexVal? (c : Char) : Option ℕ :=
  if '0' ≤ c ∧ c ≤ '9' then some (c.toNat - 48)
  else if 'a' ≤ c ∧ c ≤ 'f' then some (c.toNat - 87)
  else if 'A' ≤ c ∧ c ≤ 'F' then some (c.toNat - 70)
  else none

/-- Parse the body of a JSON string literal (after the opening quote),
returning the decoded string and the input after the closing quote.
Unescaped control characters are rejected, as in RFC 8259. -/
def parseJStrAux : List Char → List Char → Option (String × List Char)
  | '"' :: rest, acc => some (String.mk acc.reverse, rest)
  | '\\' :: 'n' :: rs, acc => parseJStrAux rs ('\n' :: acc)
  | '\\' :: 't' :: rs, acc => parseJStrAux rs ('\t' :: acc)
  | '\\' :: 'r' :: rs, acc => parseJStrAux rs ('\r' :: acc)
  | '\\' :: 'b' :: rs, acc => parseJStrAux rs (Char.ofNat 8 :: acc)
  | '\\' :: 'f' :: rs, acc => parseJStrAux rs (Char.ofNat 12 :: acc)
  | '\\' :: '"' :: rs, acc => parseJStrAux rs ('"' :: acc)
  | '\\' :: '\\' :: rs, acc => parseJStrAux rs ('\\' :: acc)
  | '\\' :: '/' :: rs, acc => parseJStrAux rs ('/' :: acc)
  | '\\' :: 'u' :: a :: b :: c :: d :: rs, acc =>
    (match hexVal? a, hexVal? b, hexVal? c, hexVal? d with
     | some x1, some x2, some x3, some x4 =>
       parseJStrAux rs (Char.ofNat (((x1 * 16 + x2) * 16 + x3) * 16 + x4) :: acc)
     | _, _, _, _ => none)
  | '\\' :: _, _ => none
  | c :: rest, acc => if c.toNat < 32 then none else parseJStrAux rest (c :: acc)
  | [], _ => none

/-- Split leading decimal digits from the input. -/
def takeDigits : List Char → List Char × List Char
  | [] => ([], [])
  | c :: cs =>
    if c.isDigit then
      let (ds, rest) := takeDigits cs
      (c :: ds, rest)
    else ([], c :: cs)

/-- Numeric value of a digit list. -/
def digitsVal (ds : List Char) : ℕ :=
  ds.foldl (fun a c => a * 10 + (c.toNat - 48)) 0

/-- Match a literal character sequence, returning the rest of the input. -/
def matchLit : List Char → List Char → Option (List Char)
  | [], cs => some cs
  | p :: ps, c :: cs => if c = p then matchLit ps cs else none
  | _ :: _, [] => none

/-- Parse a JSON number (RFC 8259 grammar: optional minus, integer part with
no leading zero, optional fraction, optional exponent). -/
def parseNum : List Char → Option (ℚ × List Char) := fun cs =>
  let (neg, cs1) := match cs with
    | '-' :: rest => (true, rest)
    | _ => (false, cs)
  let (ids, cs2) := takeDigits cs1
  if ids = [] then none
  else if ids.head? = some '0' ∧ 1 < ids.length then none
  else
    let intPart : ℚ := digitsVal ids
    let (fracPart, cs3) : ℚ × List Char :=
      match cs2 with
      | '.' :: rest =>
        let (fds, r2) := takeDigits rest
        if fds = [] then (0, cs2)
        else ((digitsVal fds : ℚ) / (10 : ℚ) ^ fds.length, r2)
      | _ => (0, cs2)
    let (expPart, cs4) : ℤ × List Char :=
      match cs3 with
      | 'e' :: rest | 'E' :: rest =>
        let (esign, r1) : ℤ × List Char := match rest with
          | '-' :: r => (-1, r)
          | '+' :: r => (1, r)
          | _ => (1, rest)
        let (eds, r2) := takeDigits r1
        if eds = [] then (0, cs3) else (esign * digitsVal eds, r2)
      | _ => (0, cs3)
    let q := (intPart + fracPart) * (10 : ℚ) ^ expPart
    some (if neg then -q else q, cs4)

/-- Parse the remaining elements of a non-empty JSON array, given a parser
`pv` for one value.  `fuel` decreases once per element; each element consumes
at least one input character. -/
def parseListAux (pv : List Char → Option (Json × List Char)) :
    ℕ → List Char → Option (List Json × List Char)
  | 0, _ => none
  | n + 1, cs => do
    let (v, cs1) ← pv cs
    match skipWs cs1 with
    | ',' :: rest => do
      let (vs, r) ← parseListAux pv n rest
      pure (v :: vs, r)
    | ']' :: rest => pure ([v], rest)
    | _ => none

/-- Parse the remaining members of a non-empty JSON object, given a parser
`pv` for one value. -/
def parseObjAux (pv : List Char → Option (Json × List Char)) :
    ℕ → List Char → Option (List (String × Json) × List Char)
  | 0, _ => none
  | n + 1, cs => do
    match skipWs cs with
    | '"' :: rest => do
      let (k, cs1) ← parseJStrAux rest []
      match skipWs cs1 with
      | ':' :: cs2 => do
        let (v, cs3) ← pv cs2
        match skipWs cs3 with
        | ',' :: rest2 => do
          let (fs, r) ← parseObjAux pv n rest2
          pure ((k, v) :: fs, r)
        | '\x7d' :: rest2 => pure ([(k, v)], rest2)
        | _ => none
      | _ => none
    | _ => none

/-- Recursive-descent parser for one JSON value.  `fuel` bounds the recursion
depth; the top-level entry point supplies `length + 1`, which can never be
exhausted because every nesting level consumes at least one character. -/
def parseValue : ℕ → List Char → Option (Json × List Char)
  | 0, _ => none
  | n + 1, cs0 =>
    match skipWs cs0 with
    | [] => none
    | '"' :: rest => (parseJStrAux rest []).map (fun p => (.str p.1, p.2))
    | '\x7b' :: rest =>
      (match skipWs rest with
       | '\x7d' :: r2 => some (.obj [], r2)
       | _ => (parseObjAux (parseValue n) n rest).map
           (fun p => (.obj p.1, p.2)))
    | '[' :: rest =>
      (match skipWs rest with
       | ']' :: r2 => some (.arr [], r2)
       | _ => (parseListAux (parseValue n) n rest).map
           (fun p => (.arr p.1, p.2)))
    | 't' :: rest => (matchLit ['r', 'u', 'e'] rest).map (fun r => (.bool true, r))
    | 'f' :: rest => (matchLit ['a', 'l', 's', 'e'] rest).map (fun r => (.bool false, r))
    | 'n' :: rest => (matchLit ['u', 'l', 'l'] rest).map (fun r => (.null, r))
    | cs => (parseNum cs).map (fun p => (.num p.1, p.2))

/-- `JSON.parse` on a character list: parse one JSON value and require only
whitespace after it; any other input throws in JS, i.e. yields `none`
here. -/
def jsonParseChars (cs : List Char) : Option Json :=
  match parseValue (cs.length + 1) cs with
  | some (j, rest) => if skipWs rest = [] then some j else none
  | none => none

/-- `JSON.parse`. -/
def jsonParse (s : String) : Option Json := jsonParseChars s.data

/-! ## Per-day markdown document (`DataStorage`) -/

/-- The string value of the `meal` discriminator. -/
def mealName : Meal → String
  | .breakfast => "breakfast"
  | .lunch => "lunch"
  | .dinner => "dinner"
  | .snack => "snack"

/-- `meal.charAt(0).toUpperCase() + meal.slice(1)` for the four meal keys. -/
def mealTitle : Meal → String
  | .breakfast => "Breakfast"
  | .lunch => "Lunch"
  | .dinner => "Dinner"
  | .snack => "Snack"

/-- Serialize a `nutrition` record to JSON, optional fields omitted when
absent (as `JSON.stringify` omits `undefined` properties). -/
def nutritionToJson (n : Nutrition) : Json :=
  .obj ([("calories", .num n.calories), ("protein", .num n.protein),
         ("carbs", .num n.carbs), ("fat", .num n.fat)] ++
    (match n.fiber with | some v => [("fiber", Json.num v)] | none => []) ++
    (match n.sugar with | some v => [("sugar", Json.num v)] | none => []) ++
    (match n.sodium with | some v => [("sodium", Json.num v)] | none => []) ++
    (match n.water with | some v => [("water", Json.num v)] | none => []))

/-- Serialize a `FoodItem` to JSON in interface field order. -/
def foodItemToJson (f : FoodItem) : Json :=
  .obj [("id", .str f.id), ("name", .str f.name), ("category", .str f.category),
        ("servingSize", .num f.servingSize), ("servingUnit", .str f.servingUnit),
        ("nutrition", nutritionToJson f.nutrition)]

/-- Serialize a `FoodEntry` to JSON in interface field order. -/
def entryToJson (e : FoodEntry) : Json :=
  .obj ([("id", .str e.id), ("date", .str e.date),
         ("timestamp", .num (e.timestamp : ℚ)),
         ("foodItem", foodItemToJson e.foodItem),
         ("quantity", .num e.quantity), ("meal", .str (mealName e.meal))] ++
    (match e.notes with | some s => [("notes", Json.str s)] | none => []))

/-- Look up a field of a JSON object field list. -/
def jField (fs : List (String × Json)) (k : String) : Option Json :=
  (fs.find? (fun p => p.1 = k)).map (·.2)

/-- Expect a JSON string. -/
def jAsStr : Option Json → Option String
  | some (.str s) => some s
  | _ => none

/-- Expect a JSON number. -/
def jAsNum : Option Json → Option ℚ
  | some (.num q) => some q
  | _ => none

/-- Decode a meal discriminator string. -/
def mealOfString : String → Option Meal
  | "breakfast" => some .breakfast
  | "lunch" => some .lunch
  | "dinner" => some .dinner
  | "snack" => some .snack
  | _ => none

/-- Decode a `nutrition` JSON object. -/
def decodeNutrition : Json → Option Nutrition
  | .obj fs => do
    let calories ← jAsNum (jField fs "calories")
    let protein ← jAsNum (jField fs "protein")
    let carbs ← jAsNum (jField fs "carbs")
    let fat ← jAsNum (jField fs "fat")
    pure { calories := calories, protein := protein, carbs := carbs, fat := fat
           fiber := jAsNum (jField fs "fiber")
           sugar := jAsNum (jField fs "sugar")
           sodium := jAsNum (jField fs "sodium")
           water := jAsNum (jField fs "water") }
  | _ => none

/-- Decode a `FoodItem` JSON object. -/
def decodeFoodItem : Json → Option FoodItem
  | .obj fs => do
    let i ← jAsStr (jField fs "id")
    let name ← jAsStr (jField fs "name")
    let category ← jAsStr (jField fs "category")
    let servingSize ← jAsNum (jField fs "servingSize")
    let servingUnit ← jAsStr (jField fs "servingUnit")
    let nutrition ← decodeNutrition ((jField fs "nutrition").getD .null)
    pure { id := i, name := name, category := category
           servingSize := servingSize, servingUnit := servingUnit
           nutrition := nutrition }
  | _ => none

/-- Decode a `FoodEntry` JSON object.  The TS source pushes the raw parsed
values into a `FoodEntry[]` without validation (they flow as `any`); the
typed model decodes the same JSON shape instead. -/
def decodeFoodEntry : Json → Option FoodEntry
  | .obj fs => do
    let i ← jAsStr (jField fs "id")
    let date ← jAsStr (jField fs "date")
    let ts ← jAsNum (jField fs "timestamp")
    let item ← decodeFoodItem ((jField fs "foodItem").getD .null)
    let quantity ← jAsNum (jField fs "quantity")
    let meal ← mealOfString ((jAsStr (jField fs "meal")).getD "")
    pure { id := i, date := date, timestamp := ts.num, foodItem := item
           quantity := quantity, meal := meal
           notes := jAsStr (jField fs "notes") }
  | _ => none

/-- The `## Food Entries` section: one subsection per non-empty meal bucket
(`Object.entries(mealGroups)` iterates in literal order breakfast, lunch,
dinner, snack), listing each entry's name, quantity and calories.
The stray `** \x7d` after the name reproduces the template literal
`- **${entry.foodItem.name}** }` of the source verbatim. -/
def mealSection (entries : List FoodEntry) (m : Meal) : String :=
  let mealEntries := entries.filter (fun e => e.meal = m)
  if mealEntries.isEmpty then ""
  else
    "### " ++ mealTitle m ++ "\n\n" ++
    String.join (mealEntries.map (fun e =>
      let calories := toFixed 0
        (e.foodItem.nutrition.calories * e.quantity * e.foodItem.servingSize / 100)
      "- **" ++ e.foodItem.name ++ "** \x7d\n" ++
      "  - Quantity: " ++ numToStr e.quantity ++ " " ++ e.foodItem.servingUnit ++ "\n" ++
      "  - Calories: " ++ calories ++ "\n" ++
      "\n"))

/-- `DataStorage.generateMarkdownContent`: title, optional rendered summary
with meal breakdown, the per-meal entry sections and the trailing
`## Raw Data` block, whose fence is written as `"```" + JSON.stringify(entries,
null, 2) + "\n```\n"` — note that no newline separates the opening fence from
the first line of the JSON. -/
def generateMarkdownContent (includeNutritionSummary : Bool) (dateKey : String)
    (entries : List FoodEntry) : String :=
  let summary := calculateDailySummary dateKey entries
  let content := "# Food Intake - " ++ dateKey ++ "\n\n"
  let content := content ++
    (if includeNutritionSummary then
      "## Daily Summary\n\n" ++
      "- **Total Calories:** " ++ toFixed 0 summary.totalCalories ++ "\n" ++
      "- **Protein:** " ++ toFixed 1 summary.totalProtein ++ "g\n" ++
      "- **Carbohydrates:** " ++ toFixed 1 summary.totalCarbs ++ "g\n" ++
      "- **Fat:** " ++ toFixed 1 summary.totalFat ++ "g\n" ++
      (if 0 < summary.totalFiber then
        "- **Fiber:** " ++ toFixed 1 summary.totalFiber ++ "g\n" else "") ++
      "\n" ++
      "### Meal Breakdown\n\n" ++
      "- **Breakfast:** " ++ numToStr summary.mealBreakdown.breakfast ++ " calories\n" ++
      "- **Lunch:** " ++ numToStr summary.mealBreakdown.lunch ++ " calories\n" ++
      "- **Dinner:** " ++ numToStr summary.mealBreakdown.dinner ++ " calories\n" ++
      "- **Snacks:** " ++ numToStr summary.mealBreakdown.snack ++ " calories\n\n"
    else "")
  let content := content ++ "## Food Entries\n\n"
  let content := content ++ mealSection entries .breakfast ++
    mealSection entries .lunch ++ mealSection entries .dinner ++
    mealSection entries .snack
  content ++ "## Raw Data\n\n" ++ "```" ++
    Json.stringify (.arr (entries.map entryToJson)) ++ "\n```\n"

/-- `content.split("\n")` at the character level: split into lines, keeping
empty pieces (as JS `split` does). -/
def splitOnNl : List Char → List Char → List (List Char)
  | [], acc => [acc.reverse]
  | c :: cs, acc =>
    if c = '\n' then acc.reverse :: splitOnNl cs [] else splitOnNl cs (c :: acc)

/-- A whitespace character for `String.prototype.trim` (the characters that
can actually occur in a generated document). -/
def isWsChar (c : Char) : Bool := c = ' ' ∨ c = '\t' ∨ c = '\n' ∨ c = '\r'

/-- `line.trim()`: drop whitespace from both ends. -/
def trimChars (cs : List Char) : List Char :=
  ((cs.dropWhile isWsChar).reverse.dropWhile isWsChar).reverse

/-- The line loop of `DataStorage.parseMarkdownContent`: `inData` is the
`inDataSection` flag, which starts `true`, is set to `false` by the first
line whose trim is exactly the ``` fence, and is never set back to `true`.
While `inData` holds, each line is `JSON.parse`d; a parsed array is spread
into the accumulator, any other value is pushed, and parse failures are
skipped. -/
def parseMdLines : List (List Char) → Bool → List Json → List Json
  | [], _, acc => acc
  | line :: rest, inData, acc =>
    let trimmed := trimChars line
    if trimmed = ['`', '`', '`'] then parseMdLines rest false acc
    else if inData then
      match jsonParseChars trimmed with
      | some (.arr xs) => parseMdLines rest inData (acc ++ xs)
      | some j => parseMdLines rest inData (acc ++ [j])
      | none => parseMdLines rest inData acc
    else parseMdLines rest inData acc

/-- `DataStorage.parseMarkdownContent`: split on newlines and run the line
loop with `inDataSection = true`.  Returns the raw parsed JSON records (the
TS source pushes them untyped into its `FoodEntry[]`). -/
def parseMarkdownContent (content : String) : List Json :=
  parseMdLines (splitOnNl content.data []) true []

/-- The typed view of `parseMarkdownContent` used by the store model when it
loads a per-day document. -/
def parseMarkdownEntries (content : String) : List FoodEntry :=
  (parseMarkdownContent content).filterMap decodeFoodEntry

/-! ## Entry store (`DataStorage`)

The store owns two date-keyed caches and talks to the host through
`plugin.loadData` / `plugin.saveData` (the aggregate structured store) and
the vault (per-day markdown files).  The host is a `World`: its persisted
data plus failure flags saying which primitives currently throw.  A JS
`async` method that can reject is modelled in `Except Unit`; a method whose
body is wrapped in a catch-all `try` is total.  `console.error` calls are
counted in `errLog`, making "logged but swallowed" observable. -/

/-- `StorageSettings.storageMethod`. -/
inductive StorageMethod where
  | json | markdown | both
deriving DecidableEq, Repr

/-- `StorageSettings` from `services/dataStorage.ts`. -/
structure StorageSettings where
  storageMethod : StorageMethod
  folderPath : String
  fileNamePattern : String
  includeNutritionSummary : Bool
  backupEnabled : Bool
  maxBackups : ℕ
deriving DecidableEq, Repr

/-- The slice of the aggregate plugin-data object the store reads and
writes: the date-keyed `foodEntries` mapping. -/
structure PluginData where
  foodEntries : List (String × List FoodEntry)
deriving DecidableEq, Repr

/-- The host: persisted state plus failure flags for each primitive.
A `true` flag means the corresponding call currently throws. -/
structure World where
  pluginData : Option PluginData
  mdFiles : List (String × String)
  backups : List String
  loadFails : Bool
  saveFails : Bool
  mdReadFails : Bool
  mdWriteFails : Bool
  createFails : Bool
deriving DecidableEq, Repr

/-- Association-list lookup (the `Map.get` / object-index idiom). -/
def mapGet {α : Type} (m : List (String × α)) (k : String) : Option α :=
  (m.find? (fun p => p.1 = k)).map (·.2)

/-- Association-list insert-or-replace (`Map.set`). -/
def mapSet {α : Type} (m : List (String × α)) (k : String) (v : α) :
    List (String × α) :=
  (k, v) :: m.filter (fun p => ¬ p.1 = k)

/-- Association-list delete (`Map.delete`). -/
def mapDel {α : Type} (m : List (String × α)) (k : String) :
    List (String × α) :=
  m.filter (fun p => ¬ p.1 = k)

/-- The in-memory state of one `DataStorage` instance. -/
structure StoreState where
  settings : StorageSettings
  cache : List (String × List FoodEntry)
  summaryCache : List (String × DailyNutritionSummary)
  world : World
  errLog : ℕ
deriving DecidableEq, Repr

/-- Host-supplied ambient values: the generated entry id
(`Date.now()`-based), the backup timestamp, and `getRecentDates(30)`
(both derived from the wall clock). -/
structure Env where
  genId : String
  nowStamp : String
  recentDates : List String
deriving DecidableEq, Repr

/-- `DataStorage.formatDate` is `moment(date).format("YYYY-MM-DD")`, a
normalizer; dates are modelled as already-normalized ISO keys, on which the
formatter is the identity. -/
def formatDate (date : String) : String := date

/-- Count one `console.error`. -/
def logErr (st : StoreState) : StoreState := { st with errLog := st.errLog + 1 }

/-- `plugin.loadData()`: throws when `loadFails`, otherwise returns the
persisted aggregate (possibly `null`). -/
def loadData (w : World) : Except Unit (Option PluginData) :=
  if w.loadFails then .error () else .ok w.pluginData

/-- `DataStorage.loadFromMarkdownFile`: resolve `<folder>/<date>.md`; if the
file exists, read and parse it into the cache.  Its `try` swallows read
errors silently (the catch block is empty), so the method is total and a
failed read leaves the cache untouched. -/
def loadFromMarkdownFile (st : StoreState) (dateKey : String) : StoreState :=
  let filePath := st.settings.folderPath ++ "/" ++ dateKey ++ ".md"
  match mapGet st.world.mdFiles filePath with
  | none => st
  | some content =>
    if st.world.mdReadFails then st
    else { st with cache := mapSet st.cache dateKey (parseMarkdownEntries content) }

/-- `DataStorage.loadFromJsonData`: read the aggregate and, if it has a
bucket for the date, install it in the cache.  Its `try` logs and swallows
(`console.error`), so the method is total. -/
def loadFromJsonData (st : StoreState) (dateKey : String) : StoreState :=
  match loadData st.world with
  | .error _ => logErr st
  | .ok data =>
    match (data.map PluginData.foodEntries).bind (fun fe => mapGet fe dateKey) with
    | some entries => { st with cache := mapSet st.cache dateKey entries }
    | none => st

/-- `DataStorage.loadDayData`: markdown first when the mode allows it, then
the JSON aggregate if the cache is still unset.  Both callees swallow their
own errors, so the outer catch (which would negative-cache `[]`) is
unreachable and the method is total. -/
def loadDayData (st : StoreState) (dateKey : String) : StoreState :=
  let st :=
    if st.settings.storageMethod = .markdown ∨ st.settings.storageMethod = .both
    then loadFromMarkdownFile st dateKey else st
  if (mapGet st.cache dateKey).isSome then st else loadFromJsonData st dateKey

/-- `DataStorage.getFoodEntriesForDate`: cached list if present (a defensive
copy in TS — value semantics here), otherwise load the day and return
whatever the cache then holds, or `[]`. -/
def getFoodEntriesForDate (st : StoreState) (date : String) :
    List FoodEntry × StoreState :=
  let dateKey := formatDate date
  match mapGet st.cache dateKey with
  | some entries => (entries, st)
  | none =>
    let st := loadDayData st dateKey
    ((mapGet st.cache dateKey).getD [], st)

/-- `DataStorage.getDailyNutritionSummary`: summary cache, else compute from
the day's entries and populate the cache.  The catch arm (zeroed summary) is
unreachable because `getFoodEntriesForDate` is total. -/
def getDailyNutritionSummary (st : StoreState) (date : String) :
    DailyNutritionSummary × StoreState :=
  let dateKey := formatDate date
  match mapGet st.summaryCache dateKey with
  | some summary => (summary, st)
  | none =>
    let (entries, st) := getFoodEntriesForDate st dateKey
    let summary := calculateDailySummary dateKey entries
    (summary, { st with summaryCache := mapSet st.summaryCache dateKey summary })

/-- `DataStorage.saveToJsonData`: read the aggregate, set the date's bucket,
write it back.  No local `try` — a backend failure propagates to the
caller. -/
def saveToJsonData (st : StoreState) (dateKey : String)
    (entries : List FoodEntry) : Except Unit StoreState := do
  let data ← loadData st.world
  let data := data.getD { foodEntries := [] }
  let data := { data with foodEntries := mapSet data.foodEntries dateKey entries }
  if st.world.saveFails then .error ()
  else .ok { st with world := { st.world with pluginData := some data } }

/-- `DataStorage.saveToMarkdownFile`: generate the document and
create-or-modify the file.  Its `try` logs and swallows write errors, so the
method is total. -/
def saveToMarkdownFile (st : StoreState) (dateKey : String)
    (entries : List FoodEntry) : StoreState :=
  let filePath := st.settings.folderPath ++ "/" ++ dateKey ++ ".md"
  let content := generateMarkdownContent st.settings.includeNutritionSummary
    dateKey entries
  if st.world.mdWriteFails then logErr st
  else { st with world :=
    { st.world with mdFiles := mapSet st.world.mdFiles filePath content } }

/-- `DataStorage.persistDayData`: write the cached bucket to the JSON
aggregate and/or the markdown file per the storage mode.  The whole body is
wrapped in `try { ... } catch { console.error(...) }`, so a JSON-write
failure is logged and **swallowed** — the method never throws. -/
def persistDayData (st : StoreState) (dateKey : String) : StoreState :=
  let entries := (mapGet st.cache dateKey).getD []
  let attempt : Except Unit StoreState := do
    let st1 ←
      if st.settings.storageMethod = .json ∨ st.settings.storageMethod = .both
      then saveToJsonData st dateKey entries else .ok st
    .ok (if st.settings.storageMethod = .markdown ∨ st.settings.storageMethod = .both
         then saveToMarkdownFile st1 dateKey entries else st1)
  match attempt with
  | .ok st' => st'
  | .error _ => logErr st

/-- `DataStorage.cleanOldBackups`: keep the `maxBackups` newest archives
(the model keeps `backups` newest-first) and delete the rest; its `try`
swallows errors. -/
def cleanOldBackups (st : StoreState) : StoreState :=
  { st with world :=
    { st.world with backups := st.world.backups.take st.settings.maxBackups } }

/-- `DataStorage.createBackup`: when backups are enabled, snapshot the day's
entries and summary to a timestamped archive file and trim old archives.
The whole body is wrapped in a logging `try`, so the method is total; if the
archive write fails, the trim is skipped. -/
def createBackup (env : Env) (st : StoreState) (dateKey : String) : StoreState :=
  if ¬ st.settings.backupEnabled then st
  else
    let backupFile := st.settings.folderPath ++ "/backups/" ++ dateKey ++
      "_backup_" ++ env.nowStamp ++ ".json"
    let st :=
      match mapGet st.summaryCache dateKey with
      | some _ => st
      | none => (getDailyNutritionSummary st dateKey).2
    if st.world.createFails then logErr st
    else cleanOldBackups
      { st with world := { st.world with backups := backupFile :: st.world.backups } }

/-- JS `Array.prototype.sort` is a stable sort; with the comparator
`(a, b) => a.timestamp - b.timestamp` it produces exactly the stable
ascending-by-timestamp ordering, here `List.insertionSort`. -/
def sortByTimestamp (entries : List FoodEntry) : List FoodEntry :=
  entries.insertionSort (fun a b => a.timestamp ≤ b.timestamp)

/-- The body of `DataStorage.saveFoodEntry`: assign an id if missing, ensure
the date's cache bucket, replace by id if present — **without re-sorting** —
or push and re-sort by timestamp; invalidate the date's cached summary;
persist the day (which swallows write errors); then snapshot a backup if
enabled. -/
def saveFoodEntryCore (env : Env) (st : StoreState) (entry0 : FoodEntry) :
    StoreState :=
  let entry := if entry0.id = "" then { entry0 with id := env.genId } else entry0
  let dateKey := formatDate entry.date
  let st :=
    if (mapGet st.cache dateKey).isSome then st
    else { st with cache := mapSet st.cache dateKey [] }
  let entries := (mapGet st.cache dateKey).getD []
  let entries :=
    match entries.findIdx? (fun e => e.id = entry.id) with
    | some i => entries.set i entry
    | none => sortByTimestamp (entries ++ [entry])
  let st := { st with cache := mapSet st.cache dateKey entries,
                      summaryCache := mapDel st.summaryCache dateKey }
  let st := persistDayData st dateKey
  if st.settings.backupEnabled then createBackup env st dateKey else st

/-- `DataStorage.saveFoodEntry` as the caller sees it: every awaited callee
(`persistDayData`, `createBackup`) catches its own errors, so the returned
promise always resolves — the `Except` layer records that no error can
propagate. -/
def saveFoodEntry (env : Env) (st : StoreState) (entry : FoodEntry) :
    Except Unit StoreState :=
  .ok (saveFoodEntryCore env st entry)

/-- `DataStorage.parseDate`: JS truthiness — `undefined` and `""` are both
falsy, so an omitted or empty date selects the recent-window search. -/
def parseDate (date : Option String) : Option String :=
  match date with
  | none => none
  | some d => if d = "" then none else some d

/-- `DataStorage.findEntryDate`: scan `getRecentDates(30)` (host clock,
supplied by `Env`), loading each date through `getFoodEntriesForDate`, and
return the first date whose entries contain the id. -/
def findEntryDate (st : StoreState) (entryId : String) :
    List String → Option String × StoreState
  | [] => (none, st)
  | d :: rest =>
    let (entries, st) := getFoodEntriesForDate st d
    if entries.any (fun e => e.id = entryId) then (some d, st)
    else findEntryDate st entryId rest

/-- `DataStorage.deleteFoodEntry`: resolve the target date (explicit, or the
30-day recent-window scan when omitted/empty); fail with `false` when the
resolved date has no cache bucket or the id is absent from it; otherwise
filter the id out, invalidate the summary, and re-persist. -/
def deleteFoodEntry (env : Env) (st : StoreState) (id : String)
    (date : Option String) : Bool × StoreState :=
  let (targetDate, st) :=
    match parseDate date with
    | some d => (some d, st)
    | none => findEntryDate st id env.recentDates
  match targetDate with
  | none => (false, st)
  | some td =>
    let dateKey := formatDate td
    match mapGet st.cache dateKey with
    | none => (false, st)
    | some entries =>
      let updatedEntries := entries.filter (fun e => ¬ e.id = id)
      if updatedEntries.length = entries.length then (false, st)
      else
        let st := { st with cache := mapSet st.cache dateKey updatedEntries,
                            summaryCache := mapDel st.summaryCache dateKey }
        (true, persistDayData st dateKey)

/-! ## Specification-side formulas and sample data -/

/-- Sum of a per-entry quantity over an entry list. -/
def sumOf (f : FoodEntry → ℚ) (es : List FoodEntry) : ℚ := (es.map f).sum

/-- Per-entry protein contribution. -/
def entryProtein (e : FoodEntry) : ℚ :=
  e.foodItem.nutrition.protein * getServingMultiplier e

/-- Per-entry carbs contribution. -/
def entryCarbs (e : FoodEntry) : ℚ :=
  e.foodItem.nutrition.carbs * getServingMultiplier e

/-- Per-entry fat contribution. -/
def entryFat (e : FoodEntry) : ℚ :=
  e.foodItem.nutrition.fat * getServingMultiplier e

/-- Per-entry fiber contribution (`nutrition.fiber || 0`). -/
def entryFiber (e : FoodEntry) : ℚ :=
  orZero e.foodItem.nutrition.fiber * getServingMultiplier e

/-- Per-entry sugar contribution (`nutrition.sugar || 0`). -/
def entrySugar (e : FoodEntry) : ℚ :=
  orZero e.foodItem.nutrition.sugar * getServingMultiplier e

/-- Per-entry sodium contribution (`nutrition.sodium || 0`). -/
def entrySodium (e : FoodEntry) : ℚ :=
  orZero e.foodItem.nutrition.sodium * getServingMultiplier e

/-- Per-entry water contribution (`nutrition.water || 0`). -/
def entryWater (e : FoodEntry) : ℚ :=
  orZero e.foodItem.nutrition.water * getServingMultiplier e

/-- Boolean check that an entry list is sorted by ascending timestamp. -/
def sortedByTs : List FoodEntry → Bool
  | [] => true
  | [_] => true
  | a :: b :: rest => a.timestamp ≤ b.timestamp && sortedByTs (b :: rest)

/-- The population variance (mean squared deviation) of a list of values
around the rounded window mean — the radicand of the "population standard
deviation" the spec describes. -/
def popVariance (xs : List ℚ) : ℚ :=
  (xs.map (fun x => (x - jround (xs.sum / xs.length)) ^ 2)).sum / xs.length

/-- Percentage of days whose protein lies in the 80%–120% band of target. -/
def proteinConsistencyPct (summaries : List DailyNutritionSummary)
    (goals : NutritionGoals) : ℚ :=
  ((summaries.filter (fun s =>
    goals.protein * 0.8 ≤ s.totalProtein ∧
      s.totalProtein ≤ goals.protein * 1.2)).length : ℚ) /
    (summaries.length : ℚ) * 100

/-- A `Nutrition` record with only the four required fields set. -/
def plainNutrition (calories protein carbs fat : ℚ) : Nutrition :=
  { calories := calories, protein := protein, carbs := carbs, fat := fat
    fiber := none, sugar := none, sodium := none, water := none }

/-- A minimal `FoodItem`. -/
def plainItem (calories servingSize : ℚ) : FoodItem :=
  { id := "f1", name := "a", category := "c", servingSize := servingSize
    servingUnit := "g", nutrition := plainNutrition calories 0 0 0 }

/-- A minimal `FoodEntry`. -/
def plainEntry (id date : String) (ts : ℤ) (calories servingSize quantity : ℚ)
    (meal : Meal) : FoodEntry :=
  { id := id, date := date, timestamp := ts, foodItem := plainItem calories servingSize
    quantity := quantity, meal := meal, notes := none }

/-- A summary with given calories/protein and all other totals zero. -/
def daySummary (date : String) (calories protein : ℚ) : DailyNutritionSummary :=
  { emptySummary date with totalCalories := calories, totalProtein := protein }

/-- The default goal profile of `NutritionCalculator` restricted to the
required fields (calories 2000, protein 150, carbs 250, fat 65). -/
def goalsC8 : NutritionGoals :=
  { calories := 2000, protein := 150, carbs := 250, fat := 65
    fiber := none, sugar := none, sodium := none, water := none }

/-- A square-root function agreeing with `Math.sqrt` at the only point the
two-day example evaluates it (IEEE `Math.sqrt` is exact there). -/
def sqrtOn10000 : ℚ → ℚ := fun q => if q = 10000 then 100 else 0

/-- The entry of the C1 failing input: one breakfast entry of a 100-calorie
item. -/
def entryC1 : FoodEntry := plainEntry "e1" "2024-01-01" 1 100 100 1 .breakfast

/-- An entry whose raw calorie total is `3/2` (1 cal per 100 at serving size
150): exhibits the absence of rounding in the store's summary. -/
def entryC5 : FoodEntry := plainEntry "e5" "2024-01-05" 1 1 150 1 .breakfast

/-- A host world with nothing persisted and no failures. -/
def quietWorld : World :=
  { pluginData := none, mdFiles := [], backups := []
    loadFails := false, saveFails := false, mdReadFails := false
    mdWriteFails := false, createFails := false }

/-- The default storage settings of the `DataStorage` constructor. -/
def defaultSettings : StorageSettings :=
  { storageMethod := .both, folderPath := "Food Tracker"
    fileNamePattern := "YYYY-MM-DD", includeNutritionSummary := true
    backupEnabled := true, maxBackups := 30 }

/-- JSON-only settings with backups disabled (used by concrete scenarios
that exercise the JSON write path in isolation). -/
def jsonSettings : StorageSettings :=
  { storageMethod := .json, folderPath := "Food Tracker"
    fileNamePattern := "YYYY-MM-DD", includeNutritionSummary := false
    backupEnabled := false, maxBackups := 30 }

/-- An ambient environment for concrete scenarios. -/
def envW : Env :=
  { genId := "entry_gen", nowStamp := "2024-01-02_00-00-00"
    recentDates := ["2024-01-02", "2024-01-01"] }

/-- C3 scenario: empty caches over a world whose `saveData` throws. -/
def stC3 : StoreState :=
  { settings := jsonSettings, cache := [], summaryCache := []
    world := { quietWorld with saveFails := true }, errLog := 0 }

/-- The entry saved in the C3 scenario. -/
def entryC3 : FoodEntry := plainEntry "e3" "2024-01-03" 5 100 100 1 .lunch

/-- C9 scenario entries: id `a` at timestamp 1, id `b` at timestamp 2, and a
replacement for id `a` carrying timestamp 3. -/
def entryA : FoodEntry := plainEntry "a" "2024-01-09" 1 100 100 1 .breakfast

/-- Second C9 entry. -/
def entryB : FoodEntry := plainEntry "b" "2024-01-09" 2 100 100 1 .lunch

/-- The replacement entry for id `a` with a later timestamp. -/
def entryA' : FoodEntry := plainEntry "a" "2024-01-09" 3 100 100 1 .breakfast

/-- C9 scenario: the date's bucket holds `[entryA, entryB]`, sorted. -/
def stC9 : StoreState :=
  { settings := jsonSettings, cache := [("2024-01-09", [entryA, entryB])]
    summaryCache := [], world := quietWorld, errLog := 0 }

/-- C10 scenario: nothing cached, but the persisted aggregate *does* hold an
entry with the searched id for the searched date. -/
def stC10 : StoreState :=
  { settings := jsonSettings, cache := [], summaryCache := []
    world := { quietWorld with
      pluginData := some ({ foodEntries := [("2024-01-10", [plainEntry "x" "2024-01-10" 1 100 100 1 Meal.dinner])] }) }
    errLog := 0 }

/-- C2 scenario: nothing cached, and both backend reads throw. -/
def stC2 : StoreState :=
  { settings := defaultSettings, cache := [], summaryCache := []
    world := { quietWorld with loadFails := true, mdReadFails := true }
    errLog := 0 }

/-- The timestamp comparator is total. -/
instance : IsTotal FoodEntry (fun a b => a.timestamp ≤ b.timestamp) :=
  ⟨fun a b => le_total a.timestamp b.timestamp⟩

/-- The timestamp comparator is transitive. -/
instance : IsTrans FoodEntry (fun a b => a.timestamp ≤ b.timestamp) :=
  ⟨fun _ _ _ hab hbc => le_trans hab hbc⟩

/-! ## Helper lemmas: the accumulation fold -/

set_option maxRecDepth 2048

theorem ratFloor_eq_intFloor (q : ℚ) : q.floor = ⌊q⌋ := by
  rw [Rat.floor_def', Rat.floor_def]

theorem jround_eq_floor (q : ℚ) : jround q = ((⌊q + 1/2⌋ : ℤ) : ℚ) := by
  rw [jround, ratFloor_eq_intFloor]

theorem sumOf_nil (f : FoodEntry → ℚ) : sumOf f [] = 0 := rfl

theorem sumOf_cons (f : FoodEntry → ℚ) (e : FoodEntry) (es : List FoodEntry) :
    sumOf f (e :: es) = f e + sumOf f es := by
  simp [sumOf]

theorem sumOf_append_singleton (f : FoodEntry → ℚ) (es : List FoodEntry)
    (e : FoodEntry) : sumOf f (es ++ [e]) = sumOf f es + f e := by
  simp [sumOf]

/-- Closed form of the shared accumulation loop: each total grows by the sum
of the per-entry contributions, `entryCount` is untouched, and each meal
bucket grows by the sum over the entries of that meal. -/
theorem foldl_accumulateEntry (es : List FoodEntry) (s : DailyNutritionSummary) :
    es.foldl accumulateEntry s =
      { date := s.date
        totalCalories := s.totalCalories + sumOf entryCalories es
        totalProtein := s.totalProtein + sumOf entryProtein es
        totalCarbs := s.totalCarbs + sumOf entryCarbs es
        totalFat := s.totalFat + sumOf entryFat es
        totalFiber := s.totalFiber + sumOf entryFiber es
        totalSugar := s.totalSugar + sumOf entrySugar es
        totalSodium := s.totalSodium + sumOf entrySodium es
        totalWater := s.totalWater + sumOf entryWater es
        entryCount := s.entryCount
        mealBreakdown :=
          { breakfast := s.mealBreakdown.breakfast + sumOf (bucketCalories .breakfast) es
            lunch := s.mealBreakdown.lunch + sumOf (bucketCalories .lunch) es
            dinner := s.mealBreakdown.dinner + sumOf (bucketCalories .dinner) es
            snack := s.mealBreakdown.snack + sumOf (bucketCalories .snack) es } } := by
  induction es generalizing s with
  | nil => simp [sumOf]
  | cons e es ih =>
    rw [List.foldl_cons, ih]
    rcases e with ⟨eid, edate, ets, eitem, eqty, emeal, enotes⟩
    cases emeal <;>
      simp [accumulateEntry, MealBreakdown.add, sumOf_cons, entryCalories,
        entryProtein, entryCarbs, entryFat, entryFiber, entrySugar,
        entrySodium, entryWater, bucketCalories, getServingMultiplier,
        add_assoc]

/-- Closed form of `DataStorage.calculateDailySummary`. -/
theorem calculateDailySummary_eq (date : String) (es : List FoodEntry) :
    calculateDailySummary date es =
      { date := date
        totalCalories := sumOf entryCalories es
        totalProtein := sumOf entryProtein es
        totalCarbs := sumOf entryCarbs es
        totalFat := sumOf entryFat es
        totalFiber := sumOf entryFiber es
        totalSugar := sumOf entrySugar es
        totalSodium := sumOf entrySodium es
        totalWater := sumOf entryWater es
        entryCount := es.length
        mealBreakdown :=
          { breakfast := sumOf (bucketCalories .breakfast) es
            lunch := sumOf (bucketCalories .lunch) es
            dinner := sumOf (bucketCalories .dinner) es
            snack := sumOf (bucketCalories .snack) es } } := by
  unfold calculateDailySummary
  rw [foldl_accumulateEntry]
  simp [emptySummary]

/-- The four meal buckets partition each entry's calories. -/
theorem sum_buckets (es : List FoodEntry) :
    sumOf (bucketCalories .breakfast) es + sumOf (bucketCalories .lunch) es +
      sumOf (bucketCalories .dinner) es + sumOf (bucketCalories .snack) es =
      sumOf entryCalories es := by
  induction es with
  | nil => simp [sumOf]
  | cons e t ih =>
    simp only [sumOf_cons]
    cases hm : e.meal <;> simp [bucketCalories, hm] <;> linarith [ih]

/-- Closed form of `NutritionCalculator.calculateDailyNutritionSummary` on a
non-empty list: the rounded sums of contributions. -/
theorem calculateDailyNutritionSummary_eq (date : String) (e : FoodEntry)
    (rest : List FoodEntry) :
    calculateDailyNutritionSummary date (e :: rest) =
      { date := date
        totalCalories := jround (sumOf entryCalories (e :: rest))
        totalProtein := round1 (sumOf entryProtein (e :: rest))
        totalCarbs := round1 (sumOf entryCarbs (e :: rest))
        totalFat := round1 (sumOf entryFat (e :: rest))
        totalFiber := round1 (sumOf entryFiber (e :: rest))
        totalSugar := round1 (sumOf entrySugar (e :: rest))
        totalSodium := round1 (sumOf entrySodium (e :: rest))
        totalWater := round1 (sumOf entryWater (e :: rest))
        entryCount := (e :: rest).length
        mealBreakdown :=
          { breakfast := jround (sumOf (bucketCalories .breakfast) (e :: rest))
            lunch := jround (sumOf (bucketCalories .lunch) (e :: rest))
            dinner := jround (sumOf (bucketCalories .dinner) (e :: rest))
            snack := jround (sumOf (bucketCalories .snack) (e :: rest)) } } := by
  simp only [calculateDailyNutritionSummary, List.isEmpty_cons, Bool.false_eq_true,
    if_false]
  rw [foldl_accumulateEntry]
  simp [emptySummary]

/-- `Math.round`ing four summands and their total stay within 2 units of
each other. -/
theorem jround_add4_bound (b1 b2 b3 b4 : ℚ) :
    |jround b1 + jround b2 + jround b3 + jround b4 -
      jround (b1 + b2 + b3 + b4)| ≤ 2 := by
  simp only [jround_eq_floor]
  have h1 : ((⌊b1 + 1/2⌋ : ℤ) : ℚ) ≤ b1 + 1/2 := Int.floor_le _
  have h2 : ((⌊b2 + 1/2⌋ : ℤ) : ℚ) ≤ b2 + 1/2 := Int.floor_le _
  have h3 : ((⌊b3 + 1/2⌋ : ℤ) : ℚ) ≤ b3 + 1/2 := Int.floor_le _
  have h4 : ((⌊b4 + 1/2⌋ : ℤ) : ℚ) ≤ b4 + 1/2 := Int.floor_le _
  have ht : ((⌊b1 + b2 + b3 + b4 + 1/2⌋ : ℤ) : ℚ) ≤ b1 + b2 + b3 + b4 + 1/2 :=
    Int.floor_le _
  have h1' : b1 + 1/2 < (⌊b1 + 1/2⌋ : ℤ) + 1 := Int.lt_floor_add_one _
  have h2' : b2 + 1/2 < (⌊b2 + 1/2⌋ : ℤ) + 1 := Int.lt_floor_add_one _
  have h3' : b3 + 1/2 < (⌊b3 + 1/2⌋ : ℤ) + 1 := Int.lt_floor_add_one _
  have h4' : b4 + 1/2 < (⌊b4 + 1/2⌋ : ℤ) + 1 := Int.lt_floor_add_one _
  have ht' : b1 + b2 + b3 + b4 + 1/2 <
      (⌊b1 + b2 + b3 + b4 + 1/2⌋ : ℤ) + 1 := Int.lt_floor_add_one _
  set z1 := ⌊b1 + 1/2⌋
  set z2 := ⌊b2 + 1/2⌋
  set z3 := ⌊b3 + 1/2⌋
  set z4 := ⌊b4 + 1/2⌋
  set zt := ⌊b1 + b2 + b3 + b4 + 1/2⌋
  have hub : ((2 * (z1 + z2 + z3 + z4 - zt) : ℤ) : ℚ) < 5 := by push_cast; linarith
  have hlb : (-5 : ℚ) < ((2 * (z1 + z2 + z3 + z4 - zt) : ℤ) : ℚ) := by
    push_cast; linarith
  have hub' : z1 + z2 + z3 + z4 - zt ≤ 2 := by
    have h5 : (2 * (z1 + z2 + z3 + z4 - zt) : ℤ) < 5 := by exact_mod_cast hub
    omega
  have hlb' : -2 ≤ z1 + z2 + z3 + z4 - zt := by
    have h5 : (-5 : ℤ) < 2 * (z1 + z2 + z3 + z4 - zt) := by exact_mod_cast hlb
    omega
  rw [abs_le]
  constructor
  · exact_mod_cast hlb'
  · exact_mod_cast hub'

/-- C4: every entry contributes `foodItem.nutrition.X * (q * s) / 100` to
each nutrient total of the store's daily summary (optional nutrients default
to `0`), and in particular its calories contribution is
`nutrition.calories * q * s / 100`; the rule is the same for every entry,
with no per-food special case. -/
theorem C4_serving_multiplier (date : String) (es : List FoodEntry)
    (e : FoodEntry) :
    (calculateDailySummary date (es ++ [e])).totalCalories =
        (calculateDailySummary date es).totalCalories +
          e.foodItem.nutrition.calories * (e.quantity * e.foodItem.servingSize) / 100 ∧
    (calculateDailySummary date (es ++ [e])).totalProtein =
        (calculateDailySummary date es).totalProtein +
          e.foodItem.nutrition.protein * (e.quantity * e.foodItem.servingSize) / 100 ∧
    (calculateDailySummary date (es ++ [e])).totalCarbs =
        (calculateDailySummary date es).totalCarbs +
          e.foodItem.nutrition.carbs * (e.quantity * e.foodItem.servingSize) / 100 ∧
    (calculateDailySummary date (es ++ [e])).totalFat =
        (calculateDailySummary date es).totalFat +
          e.foodItem.nutrition.fat * (e.quantity * e.foodItem.servingSize) / 100 ∧
    (calculateDailySummary date (es ++ [e])).totalFiber =
        (calculateDailySummary date es).totalFiber +
          orZero e.foodItem.nutrition.fiber * (e.quantity * e.foodItem.servingSize) / 100 ∧
    (calculateDailySummary date (es ++ [e])).totalSugar =
        (calculateDailySummary date es).totalSugar +
          orZero e.foodItem.nutrition.sugar * (e.quantity * e.foodItem.servingSize) / 100 ∧
    (calculateDailySummary date (es ++ [e])).totalSodium =
        (calculateDailySummary date es).totalSodium +
          orZero e.foodItem.nutrition.sodium * (e.quantity * e.foodItem.servingSize) / 100 ∧
    (calculateDailySummary date (es ++ [e])).totalWater =
        (calculateDailySummary date es).totalWater +
          orZero e.foodItem.nutrition.water * (e.quantity * e.foodItem.servingSize) / 100 := by
  simp only [calculateDailySummary_eq, sumOf_append_singleton, entryCalories,
    entryProtein, entryCarbs, entryFat, entryFiber, entrySugar, entrySodium,
    entryWater, getServingMultiplier]
  refine ⟨by ring, by ring, by ring, by ring, by ring, by ring, by ring, by ring⟩

/-- C5 counterexample: the store's summary (the summary computation of
`DataStorage`, used by `getDailyNutritionSummary`) does **not** round: one
entry of a 1-calorie-per-100 item at serving size 150 yields a raw calorie
total of `3/2`, which is not a whole number. -/
theorem C5_counterexample :
    jround ((calculateDailySummary "2024-01-05" [entryC5]).totalCalories) ≠
      (calculateDailySummary "2024-01-05" [entryC5]).totalCalories := by
  with_unfolding_all decide

/-- C5 (amended): the rounding policy is implemented by
`NutritionCalculator.calculateDailyNutritionSummary`, which equals the
store's (unrounded) summary with `Math.round` applied to the calorie total
and each meal bucket and one-decimal rounding applied to the gram/ml
totals. -/
theorem C5_rounding_policy (date : String) (es : List FoodEntry) :
    (calculateDailyNutritionSummary date es).totalCalories =
        jround ((calculateDailySummary date es).totalCalories) ∧
    (calculateDailyNutritionSummary date es).totalProtein =
        round1 ((calculateDailySummary date es).totalProtein) ∧
    (calculateDailyNutritionSummary date es).totalCarbs =
        round1 ((calculateDailySummary date es).totalCarbs) ∧
    (calculateDailyNutritionSummary date es).totalFat =
        round1 ((calculateDailySummary date es).totalFat) ∧
    (calculateDailyNutritionSummary date es).totalFiber =
        round1 ((calculateDailySummary date es).totalFiber) ∧
    (calculateDailyNutritionSummary date es).totalSugar =
        round1 ((calculateDailySummary date es).totalSugar) ∧
    (calculateDailyNutritionSummary date es).totalSodium =
        round1 ((calculateDailySummary date es).totalSodium) ∧
    (calculateDailyNutritionSummary date es).totalWater =
        round1 ((calculateDailySummary date es).totalWater) ∧
    (calculateDailyNutritionSummary date es).mealBreakdown.breakfast =
        jround ((calculateDailySummary date es).mealBreakdown.breakfast) ∧
    (calculateDailyNutritionSummary date es).mealBreakdown.lunch =
        jround ((calculateDailySummary date es).mealBreakdown.lunch) ∧
    (calculateDailyNutritionSummary date es).mealBreakdown.dinner =
        jround ((calculateDailySummary date es).mealBreakdown.dinner) ∧
    (calculateDailyNutritionSummary date es).mealBreakdown.snack =
        jround ((calculateDailySummary date es).mealBreakdown.snack) := by
  cases es with
  | nil =>
    refine ⟨?_, ?_, ?_, ?_, ?_, ?_, ?_, ?_, ?_, ?_, ?_, ?_⟩ <;>
      simp [calculateDailyNutritionSummary, calculateDailySummary, emptySummary,
        jround_eq_floor, jround, round1, ratFloor_eq_intFloor] <;> norm_num
  | cons e rest =>
    rw [calculateDailyNutritionSummary_eq, calculateDailySummary_eq]
    exact ⟨rfl, rfl, rfl, rfl, rfl, rfl, rfl, rfl, rfl, rfl, rfl, rfl⟩

/-- C6: for the store's summary the meal buckets sum **exactly** to the
calorie total (hence within any floating-point tolerance) and `entryCount`
is the number of entries; the rounded display summary keeps the same
`entryCount` and its bucket sum agrees with its calorie total up to the
rounding slack of at most 2 units. -/
theorem C6_summary_invariants (date : String) (es : List FoodEntry) :
    (calculateDailySummary date es).mealBreakdown.breakfast +
        (calculateDailySummary date es).mealBreakdown.lunch +
        (calculateDailySummary date es).mealBreakdown.dinner +
        (calculateDailySummary date es).mealBreakdown.snack =
        (calculateDailySummary date es).totalCalories ∧
    (calculateDailySummary date es).entryCount = es.length ∧
    (calculateDailyNutritionSummary date es).entryCount = es.length ∧
    |(calculateDailyNutritionSummary date es).mealBreakdown.breakfast +
        (calculateDailyNutritionSummary date es).mealBreakdown.lunch +
        (calculateDailyNutritionSummary date es).mealBreakdown.dinner +
        (calculateDailyNutritionSummary date es).mealBreakdown.snack -
        (calculateDailyNutritionSummary date es).totalCalories| ≤ 2 := by
  refine ⟨?_, ?_, ?_, ?_⟩
  · simp only [calculateDailySummary_eq]
    exact sum_buckets es
  · simp [calculateDailySummary_eq]
  · cases es with
    | nil => simp [calculateDailyNutritionSummary, emptySummary]
    | cons e rest => rw [calculateDailyNutritionSummary_eq]
  · cases es with
    | nil =>
      simp [calculateDailyNutritionSummary, emptySummary]
    | cons e rest =>
      rw [calculateDailyNutritionSummary_eq]
      have hb := jround_add4_bound (sumOf (bucketCalories .breakfast) (e :: rest))
        (sumOf (bucketCalories .lunch) (e :: rest))
        (sumOf (bucketCalories .dinner) (e :: rest))
        (sumOf (bucketCalories .snack) (e :: rest))
      rw [sum_buckets] at hb
      exact hb

/-! ## Goal and trend analyzer theorems -/

/-- C7: at exactly 100% of the calorie target the progress record reports
percentage 100 and remaining 0, and for a limit nutrient the 80%/110% band
is boundary-inclusive: 80% and 110% of the limit classify as `met`, 111% as
`over`. -/
theorem C7_goal_boundaries (t l : ℚ) (ht : 0 < t) (hl : 0 < l) :
    (calculateProgress t t).percentage = 100 ∧
    (calculateProgress t t).remaining = 0 ∧
    (calculateLimitProgress (0.8 * l) l).status = .met ∧
    (calculateLimitProgress (1.1 * l) l).status = .met ∧
    (calculateLimitProgress (1.11 * l) l).status = .over := by
  refine ⟨?_, ?_, ?_, ?_, ?_⟩
  · show (if 0 < t then jround (t / t * 100) else 0) = 100
    rw [if_pos ht, div_self (ne_of_gt ht), one_mul, jround_eq_floor]
    norm_num
  · show round1 (max 0 (t - t)) = 0
    rw [sub_self, max_self, round1, mul_comm, mul_zero, jround_eq_floor]
    norm_num
  · show (if (0.8 : ℚ) * l < l * 0.8 then LimitStatus.under
      else if l * 1.1 < 0.8 * l then LimitStatus.over else LimitStatus.met) = .met
    rw [if_neg (by rw [mul_comm]; exact lt_irrefl _),
      if_neg (by nlinarith)]
  · show (if (1.1 : ℚ) * l < l * 0.8 then LimitStatus.under
      else if l * 1.1 < 1.1 * l then LimitStatus.over else LimitStatus.met) = .met
    rw [if_neg (by nlinarith), if_neg (by rw [mul_comm]; exact lt_irrefl _)]
  · show (if (1.11 : ℚ) * l < l * 0.8 then LimitStatus.under
      else if l * 1.1 < 1.11 * l then LimitStatus.over else LimitStatus.met) = .over
    rw [if_neg (by nlinarith), if_pos (by nlinarith)]

/-- C7 witness: target 2000 and limit 2300 (the sodium default). -/
theorem C7_goal_boundaries_witness :
    (calculateProgress 2000 2000).percentage = 100 ∧
    (calculateProgress 2000 2000).remaining = 0 ∧
    (calculateLimitProgress (0.8 * 2300) 2300).status = .met ∧
    (calculateLimitProgress (1.1 * 2300) 2300).status = .met ∧
    (calculateLimitProgress (1.11 * 2300) 2300).status = .over :=
  C7_goal_boundaries 2000 2300 (by norm_num) (by norm_num)

theorem avgFold_fst (ss : List DailyNutritionSummary)
    (acc : ℚ × ℚ × ℚ × ℚ × ℚ) :
    (ss.foldl avgStep acc).1 = acc.1 + (ss.map (·.totalCalories)).sum := by
  induction ss generalizing acc with
  | nil => simp
  | cons s t ih =>
    rw [List.foldl_cons, ih]
    simp [avgStep, add_assoc]

/-- The `calories` component of `calculateAverages` is the rounded mean. -/
theorem calculateAverages_calories (ss : List DailyNutritionSummary)
    (h : ss.length ≠ 0) :
    (calculateAverages ss).calories =
      jround ((ss.map (·.totalCalories)).sum / (ss.length : ℚ)) := by
  unfold calculateAverages
  rw [if_neg h]
  show jround ((ss.foldl avgStep (0, 0, 0, 0, 0)).1 / (ss.length : ℚ)) = _
  rw [avgFold_fst]
  norm_num

/-- Closed form of `calculateConsistency` on a window of at least two days:
`sqrt` applied to the population variance of daily calories around the
rounded window average, the protein-band percentage, and the average of the
variance-derived score with that percentage, all `Math.round`ed. -/
theorem calculateConsistency_spec (f : ℚ → ℚ)
    (ss : List DailyNutritionSummary) (g : NutritionGoals)
    (h2 : 2 ≤ ss.length) :
    calculateConsistency f ss g =
      { calorieVariance := jround (f (popVariance (ss.map (·.totalCalories))))
        proteinConsistency := jround (proteinConsistencyPct ss g)
        overallScore := jround
          ((max 0 (100 - f (popVariance (ss.map (·.totalCalories))) / g.calories * 100) +
            proteinConsistencyPct ss g) / 2) } := by
  have hne : ¬ ss.length < 2 := by omega
  have hlen0 : ss.length ≠ 0 := by omega
  unfold calculateConsistency
  rw [if_neg hne]
  dsimp only
  have hvar : ((ss.map (fun s => (s.totalCalories - (calculateAverages ss).calories) ^ 2)).sum /
      ((ss.map (fun s => (s.totalCalories - (calculateAverages ss).calories) ^ 2)).length : ℚ)) =
      popVariance (ss.map (·.totalCalories)) := by
    rw [calculateAverages_calories ss hlen0, popVariance]
    simp [List.map_map, Function.comp_def]
  rw [hvar]
  rfl

/-- C8: the consistency report computes calorie variance as the population
standard deviation (an opaque `Math.sqrt`, assumed exact only at the perfect
square the example hits) of daily calories around the rounded window
average, and the overall score as the rounded average of the
variance-derived calorie score with the protein-band percentage; on the
two-day window `[2000, 2200]` with target 2000 and protein on target both
days it returns `calorieVariance = 100` and `overallScore = 98` (with
`proteinConsistency = 100`). -/
theorem C8_consistency_report :
    (∀ f : ℚ → ℚ, f 10000 = 100 →
      calculateConsistency f
          [daySummary "2024-02-01" 2000 150, daySummary "2024-02-02" 2200 150]
          goalsC8 =
        { calorieVariance := 100, proteinConsistency := 100, overallScore := 98 }) ∧
    (∀ (f : ℚ → ℚ) (ss : List DailyNutritionSummary) (g : NutritionGoals),
      2 ≤ ss.length →
      (calculateConsistency f ss g).calorieVariance =
          jround (f (popVariance (ss.map (·.totalCalories)))) ∧
      (calculateConsistency f ss g).proteinConsistency =
          jround (proteinConsistencyPct ss g) ∧
      (calculateConsistency f ss g).overallScore =
          jround ((max 0 (100 - f (popVariance (ss.map (·.totalCalories))) / g.calories * 100) +
            proteinConsistencyPct ss g) / 2)) := by
  constructor
  · intro f hf
    rw [calculateConsistency_spec f _ _ (by simp)]
    have harg : popVariance
        (([daySummary "2024-02-01" 2000 150, daySummary "2024-02-02" 2200 150]).map
          (·.totalCalories)) = 10000 := by
      norm_num [popVariance, daySummary, emptySummary, jround_eq_floor]
    have hpct : proteinConsistencyPct
        [daySummary "2024-02-01" 2000 150, daySummary "2024-02-02" 2200 150] goalsC8 =
        100 := by
      norm_num [proteinConsistencyPct, daySummary, emptySummary, goalsC8,
        List.filter]
    rw [harg, hpct, hf]
    have h100 : jround (100 : ℚ) = 100 := by
      rw [jround_eq_floor]; norm_num
    have hgc : goalsC8.calories = 2000 := rfl
    rw [hgc]
    have hos : jround ((max 0 (100 - (100 : ℚ) / 2000 * 100) + 100) / 2) = 98 := by
      rw [jround_eq_floor]
      norm_num
    rw [h100, hos]
  · intro f ss g h2
    rw [calculateConsistency_spec f ss g h2]
    exact ⟨rfl, rfl, rfl⟩

/-- C8 witness: instantiate the example with a concrete square-root function
that is exact at `10000`, and the general clause at the same window. -/
theorem C8_consistency_report_witness :
    calculateConsistency sqrtOn10000
        [daySummary "2024-02-01" 2000 150, daySummary "2024-02-02" 2200 150]
        goalsC8 =
      { calorieVariance := 100, proteinConsistency := 100, overallScore := 98 } :=
  C8_consistency_report.1 sqrtOn10000 (by norm_num [sqrtOn10000])

/-! ## Helper lemmas: the entry store -/

theorem mapGet_mapSet_self {α : Type} (m : List (String × α)) (k : String)
    (v : α) : mapGet (mapSet m k v) k = some v := by
  simp [mapGet, mapSet]

theorem mapSet_mapSet {α : Type} (m : List (String × α)) (k : String)
    (w v : α) : mapSet (mapSet m k w) k v = mapSet m k v := by
  simp only [mapSet, List.filter_cons]
  simp [List.filter_filter]

/-- `persistDayData` only writes to the host world and the error log: the
caches and the settings are untouched, whichever branches run. -/
theorem persistDayData_state (st : StoreState) (k : String) :
    (persistDayData st k).cache = st.cache ∧
    (persistDayData st k).summaryCache = st.summaryCache ∧
    (persistDayData st k).settings = st.settings := by
  unfold persistDayData saveToJsonData saveToMarkdownFile loadData logErr
  cases hj : st.world.loadFails <;> cases hs : st.world.saveFails <;>
    cases hm : st.world.mdWriteFails <;>
    rcases hsm : st.settings.storageMethod with _ | _ | _ <;>
    simp [hj, hs, hm, hsm, Bind.bind, Except.bind]

/-- A cache hit returns the bucket and leaves the state unchanged. -/
theorem getFoodEntriesForDate_hit (st : StoreState) (d : String)
    (l : List FoodEntry) (h : mapGet st.cache (formatDate d) = some l) :
    getFoodEntriesForDate st d = (l, st) := by
  unfold getFoodEntriesForDate
  dsimp only
  rw [h]

/-- When the date is cached, `getDailyNutritionSummary` can only touch the
summary cache. -/
theorem getDailyNutritionSummary_state (st : StoreState) (d : String)
    (h : (mapGet st.cache (formatDate d)).isSome) :
    (getDailyNutritionSummary st d).2.cache = st.cache ∧
    (getDailyNutritionSummary st d).2.settings = st.settings ∧
    (getDailyNutritionSummary st d).2.world = st.world ∧
    (getDailyNutritionSummary st d).2.errLog = st.errLog := by
  obtain ⟨l, hl⟩ := Option.isSome_iff_exists.mp h
  unfold getDailyNutritionSummary
  dsimp only
  cases hsc : mapGet st.summaryCache (formatDate d) with
  | some s => exact ⟨rfl, rfl, rfl, rfl⟩
  | none =>
    dsimp only
    rw [getFoodEntriesForDate_hit st (formatDate d) l
      (by simpa [formatDate] using hl)]
    exact ⟨rfl, rfl, rfl, rfl⟩

/-- When the date is cached, `createBackup` can only touch the summary
cache, the archives and the error log. -/
theorem createBackup_state (env : Env) (st : StoreState) (k : String)
    (h : (mapGet st.cache (formatDate k)).isSome) :
    (createBackup env st k).cache = st.cache ∧
    (createBackup env st k).settings = st.settings := by
  unfold createBackup
  obtain ⟨hc, hs, hw, hel⟩ := getDailyNutritionSummary_state st k h
  cases hb : st.settings.backupEnabled <;>
    cases hsc : mapGet st.summaryCache k <;>
    cases hcf : st.world.createFails <;>
    simp_all [cleanOldBackups, logErr, formatDate]

/-- Closed form of the `saveFoodEntry` body for an entry that already has an
id: replace in place by id, or append and stably re-sort; invalidate the
summary; persist; back up if enabled. -/
theorem saveFoodEntryCore_spec (env : Env) (st : StoreState) (e : FoodEntry)
    (he : ¬ e.id = "") :
    saveFoodEntryCore env st e =
      (let dateKey := formatDate e.date
       let old := (mapGet st.cache dateKey).getD []
       let entries :=
         match old.findIdx? (fun x => x.id = e.id) with
         | some i => old.set i e
         | none => sortByTimestamp (old ++ [e])
       let st2 : StoreState :=
         { st with cache := mapSet st.cache dateKey entries,
                   summaryCache := mapDel st.summaryCache dateKey }
       let st3 := persistDayData st2 dateKey
       if st3.settings.backupEnabled then createBackup env st3 dateKey else st3) := by
  unfold saveFoodEntryCore
  rw [if_neg he]
  cases hc : mapGet st.cache (formatDate e.date) with
  | some l => simp [hc]
  | none =>
    simp only [hc, Option.isSome_none, Bool.false_eq_true, if_false,
      mapGet_mapSet_self, Option.getD_some, Option.getD_none, mapSet_mapSet]

/-- A failing markdown read leaves the state untouched (the catch block of
`loadFromMarkdownFile` is empty). -/
theorem loadFromMarkdownFile_fail (st : StoreState) (k : String)
    (h : st.world.mdReadFails = true) : loadFromMarkdownFile st k = st := by
  unfold loadFromMarkdownFile
  cases hc : mapGet st.world.mdFiles (st.settings.folderPath ++ "/" ++ k ++ ".md") <;>
    simp [hc, h]

/-- In JSON mode with a read that succeeds and a write that throws,
`persistDayData` logs and swallows: the result is just `logErr`. -/
theorem persistDayData_jsonfail (st : StoreState) (k : String)
    (hm : st.settings.storageMethod = .json) (hl : st.world.loadFails = false)
    (hs : st.world.saveFails = true) : persistDayData st k = logErr st := by
  unfold persistDayData saveToJsonData loadData
  simp [hm, hl, hs, Bind.bind, Except.bind]

/-- The cache bucket installed before `persistDayData`/`createBackup` run is
still in place afterwards. -/
theorem cache_after_updates (env : Env) (st2 : StoreState) (k : String)
    (l : List FoodEntry) (h : mapGet st2.cache k = some l) :
    mapGet (if (persistDayData st2 k).settings.backupEnabled then
        createBackup env (persistDayData st2 k) k
      else persistDayData st2 k).cache k = some l := by
  obtain ⟨hc3, -, -⟩ := persistDayData_state st2 k
  by_cases hb : (persistDayData st2 k).settings.backupEnabled
  · rw [if_pos hb]
    obtain ⟨hcB, -⟩ := createBackup_state env (persistDayData st2 k) k
      (by simp [formatDate, hc3, h])
    rw [hcB, hc3, h]
  · rw [if_neg hb, hc3, h]

/-- The bucket the `saveFoodEntry` body leaves in the cache for the entry's
date: replace-in-place by id, or append-and-sort. -/
theorem saveFoodEntryCore_bucket (env : Env) (st : StoreState) (e : FoodEntry)
    (he : ¬ e.id = "") :
    mapGet (saveFoodEntryCore env st e).cache (formatDate e.date) =
      some (match ((mapGet st.cache (formatDate e.date)).getD []).findIdx?
              (fun x => x.id = e.id) with
            | some i => ((mapGet st.cache (formatDate e.date)).getD []).set i e
            | none =>
              sortByTimestamp (((mapGet st.cache (formatDate e.date)).getD []) ++ [e])) := by
  rw [saveFoodEntryCore_spec env st e he]
  dsimp only
  exact cache_after_updates env _ (formatDate e.date) _ (mapGet_mapSet_self _ _ _)

/-- When the JSON write throws (with backups off), the error is only logged:
the pipeline after the cache update increments `errLog` and returns. -/
theorem after_persist_err (env : Env) (st2 : StoreState) (k : String)
    (hm : st2.settings.storageMethod = .json)
    (hb : st2.settings.backupEnabled = false)
    (hl : st2.world.loadFails = false) (hs : st2.world.saveFails = true) :
    (if (persistDayData st2 k).settings.backupEnabled then
        createBackup env (persistDayData st2 k) k
      else persistDayData st2 k).errLog = st2.errLog + 1 := by
  rw [persistDayData_jsonfail st2 k hm hl hs, if_neg (by simp [logErr, hb])]
  rfl

/-- The saved entry is a member of the updated bucket, in both the replace
and the insert case. -/
theorem mem_updated_bucket (old : List FoodEntry) (e : FoodEntry) :
    e ∈ (match old.findIdx? (fun x => x.id = e.id) with
         | some i => old.set i e
         | none => sortByTimestamp (old ++ [e])) := by
  cases hidx : old.findIdx? (fun x => x.id = e.id) with
  | none => simp [sortByTimestamp, List.mem_insertionSort]
  | some i =>
    obtain ⟨hlt, -, -⟩ := List.findIdx?_eq_some_iff_getElem.mp hidx
    have h1 : i < (old.set i e).length := by simpa using hlt
    have h2 : (old.set i e)[i] = e := List.getElem_set_self h1
    have h3 : (old.set i e)[i] ∈ old.set i e := List.getElem_mem h1
    rw [h2] at h3
    exact h3

/-- A `Sorted`-by-timestamp list passes the boolean sortedness check. -/
theorem sortedByTs_of_sorted :
    ∀ {l : List FoodEntry},
      l.Sorted (fun a b => a.timestamp ≤ b.timestamp) → sortedByTs l = true
  | [], _ => rfl
  | [_], _ => rfl
  | a :: b :: t, h => by
    rw [List.sorted_cons] at h
    have hab : a.timestamp ≤ b.timestamp := h.1 b (by simp)
    have ht : sortedByTs (b :: t) = true := sortedByTs_of_sorted h.2
    simp [sortedByTs, hab, ht]

/-- The stable timestamp sort produces a sorted bucket. -/
theorem sortedByTs_sortByTimestamp (l : List FoodEntry) :
    sortedByTs (sortByTimestamp l) = true :=
  sortedByTs_of_sorted
    (List.sorted_insertionSort (fun a b => a.timestamp ≤ b.timestamp) l)

/-! ## Store claim theorems -/

/-- C2: when both backend reads throw (`vault.read` and `plugin.loadData`),
`getFoodEntriesForDate` on an uncached date returns the empty list and the
cache afterwards still has no bucket for that date — the inner catches
swallow the errors before the negative-caching catch of `loadDayData` could
run — so a later call will retry the load. -/
theorem C2_load_failure_no_negative_cache (st : StoreState) (d : String)
    (hmiss : mapGet st.cache (formatDate d) = none)
    (hmd : st.world.mdReadFails = true)
    (hjson : st.world.loadFails = true) :
    (getFoodEntriesForDate st d).1 = [] ∧
    (getFoodEntriesForDate st d).2.cache = st.cache ∧
    mapGet (getFoodEntriesForDate st d).2.cache (formatDate d) = none := by
  have hmdl : (if st.settings.storageMethod = .markdown ∨
      st.settings.storageMethod = .both then
        loadFromMarkdownFile st (formatDate d) else st) = st := by
    split_ifs with h1
    · exact loadFromMarkdownFile_fail st _ hmd
    · rfl
  have hload : loadDayData st (formatDate d) = logErr st := by
    unfold loadDayData
    dsimp only
    rw [hmdl, hmiss]
    unfold loadFromJsonData loadData
    rw [hjson]
    rfl
  unfold getFoodEntriesForDate
  dsimp only
  rw [hmiss]
  dsimp only
  rw [hload]
  exact ⟨by simp [logErr, hmiss], rfl, by simp [logErr, hmiss]⟩

/-- C2 witness: the default-settings store with an empty cache over a world
whose reads throw. -/
theorem C2_load_failure_witness :
    (getFoodEntriesForDate stC2 "2024-01-02").1 = [] ∧
    (getFoodEntriesForDate stC2 "2024-01-02").2.cache = stC2.cache ∧
    mapGet (getFoodEntriesForDate stC2 "2024-01-02").2.cache
      (formatDate "2024-01-02") = none :=
  C2_load_failure_no_negative_cache stC2 "2024-01-02" rfl rfl rfl

/-- C3 counterexample: with a backend whose write throws, `saveFoodEntry`
still resolves normally (`.ok`, no failure signal for the caller), the cache
mutation has happened, the persisted world is unchanged, and the error was
only logged — the failure **is** hidden from the caller. -/
theorem C3_counterexample :
    saveFoodEntry envW stC3 entryC3 = .ok (saveFoodEntryCore envW stC3 entryC3) ∧
    mapGet (saveFoodEntryCore envW stC3 entryC3).cache "2024-01-03" =
      some [entryC3] ∧
    (saveFoodEntryCore envW stC3 entryC3).errLog = stC3.errLog + 1 ∧
    (saveFoodEntryCore envW stC3 entryC3).world = stC3.world := by
  refine ⟨rfl, ?_, ?_, ?_⟩ <;> with_unfolding_all decide

/-- C3 (amended): `saveFoodEntry` never propagates a persistence failure:
it always resolves with the cache mutation applied; when the JSON write
throws, the error is only counted in the console log. -/
theorem C3_amended_write_failure_swallowed (env : Env) (st : StoreState)
    (e : FoodEntry) (he : ¬ e.id = "") :
    saveFoodEntry env st e = .ok (saveFoodEntryCore env st e) ∧
    e ∈ (mapGet (saveFoodEntryCore env st e).cache (formatDate e.date)).getD [] ∧
    (st.settings.storageMethod = .json → st.settings.backupEnabled = false →
      st.world.loadFails = false → st.world.saveFails = true →
      (saveFoodEntryCore env st e).errLog = st.errLog + 1) := by
  refine ⟨rfl, ?_, ?_⟩
  · rw [saveFoodEntryCore_bucket env st e he]
    simpa using mem_updated_bucket _ e
  · intro hm hb hl hs
    rw [saveFoodEntryCore_spec env st e he]
    dsimp only
    exact after_persist_err env _ (formatDate e.date) hm hb hl hs

/-- C3 witness: the amended claim at the concrete failing-write scenario. -/
theorem C3_amended_witness :
    saveFoodEntry envW stC3 entryC3 = .ok (saveFoodEntryCore envW stC3 entryC3) ∧
    entryC3 ∈ (mapGet (saveFoodEntryCore envW stC3 entryC3).cache
      (formatDate entryC3.date)).getD [] ∧
    (stC3.settings.storageMethod = .json → stC3.settings.backupEnabled = false →
      stC3.world.loadFails = false → stC3.world.saveFails = true →
      (saveFoodEntryCore envW stC3 entryC3).errLog = stC3.errLog + 1) :=
  C3_amended_write_failure_swallowed envW stC3 entryC3 (by decide)

/-- C9 counterexample: replacing entry `a` (timestamp 1) by id with a
timestamp-3 version while `b` (timestamp 2) follows it leaves the bucket
`[a', b]` — the replace branch does not re-sort, so the bucket is no longer
sorted by timestamp. -/
theorem C9_counterexample :
    mapGet (saveFoodEntryCore envW stC9 entryA').cache "2024-01-09" =
      some [entryA', entryB] ∧
    sortedByTs [entryA', entryB] = false := by
  refine ⟨?_, ?_⟩ <;> with_unfolding_all decide

/-- C9 (amended): when the saved entry's id is **new** for its date, the
cached list afterwards is sorted by ascending timestamp; a replace by an
existing id substitutes in place without re-sorting. -/
theorem C9_amended_insert_sorted (env : Env) (st : StoreState) (e : FoodEntry)
    (he : ¬ e.id = "")
    (hnew : ∀ x ∈ (mapGet st.cache (formatDate e.date)).getD [], ¬ x.id = e.id) :
    sortedByTs ((mapGet (saveFoodEntryCore env st e).cache
      (formatDate e.date)).getD []) = true := by
  rw [saveFoodEntryCore_bucket env st e he]
  have hidx : ((mapGet st.cache (formatDate e.date)).getD []).findIdx?
      (fun x => x.id = e.id) = none := by
    rw [List.findIdx?_eq_none_iff]
    intro x hx
    simpa using hnew x hx
  rw [hidx]
  simpa using sortedByTs_sortByTimestamp _

/-- C9 witness: inserting a fresh entry into an empty store leaves a sorted
bucket. -/
theorem C9_amended_witness :
    sortedByTs ((mapGet (saveFoodEntryCore envW
      { settings := jsonSettings, cache := [], summaryCache := []
        world := quietWorld, errLog := 0 } entryB).cache
      (formatDate entryB.date)).getD []) = true :=
  C9_amended_insert_sorted envW _ entryB (by decide) (by simp [mapGet])

/-- C10: deleting by id with an explicitly supplied (non-empty) date whose
bucket is not in the cache returns `false` and changes nothing — persisted
storage is never consulted on this path, even if it holds the entry. -/
theorem C10_delete_uncached_date (env : Env) (st : StoreState) (id D : String)
    (hD : ¬ D = "") (hmiss : mapGet st.cache (formatDate D) = none) :
    deleteFoodEntry env st id (some D) = (false, st) := by
  unfold deleteFoodEntry parseDate
  dsimp only
  rw [if_neg hD]
  dsimp only
  rw [hmiss]

/-- C10 witness: the persisted aggregate holds entry `x` for the date, but
the uncached explicit-date delete still returns `false` and leaves the state
alone. -/
theorem C10_delete_uncached_witness :
    deleteFoodEntry envW stC10 "x" (some "2024-01-10") = (false, stC10) :=
  C10_delete_uncached_date envW stC10 "x" "2024-01-10" (by decide) rfl

/-- C1 (code bug): generating the per-day document for a non-empty entry
list and re-parsing it yields the **empty** list, not the entries: the
parser consumes only the prose before the first fence line (its
`inDataSection` flag starts `true` and is permanently cleared by the first
fence, which is also glued to the JSON's first line), so the `## Raw Data`
block — which round-trips fine in isolation, as the third conjunct shows —
is never read back. -/
theorem C1_roundtrip_failure :
    parseMarkdownContent (generateMarkdownContent false "2024-01-01" [entryC1]) = [] ∧
    parseMarkdownContent (generateMarkdownContent true "2024-01-01" [entryC1]) = [] ∧
    decodeFoodEntry (entryToJson entryC1) = some entryC1 ∧
    (jsonParse (Json.stringify (.arr [entryToJson entryC1]))).isSome = true := by
  refine ⟨?_, ?_, ?_, ?_⟩ <;> with_unfolding_all rfl

end FoodTracker
